import Mathlib

/-!
Verification of the exercise/task-gating engine of the Doctor's Office
training simulation (React/TypeScript sources `Quiz.tsx`,
`DoctorOfficeRoom` in `Quiz.tsx`, `App.tsx`, `Certificate`).

The stateful React components are embedded as explicit state types with
step functions; `Math.random`-driven shuffles are embedded as a
Fisher-Yates loop parametrised by an explicit stream of draws, or (where
only permutation-invariance matters) as a `List.Perm` hypothesis on the
shuffled data.
-/

namespace DoctorsOffice

/-! ## Randomizer: Fisher-Yates shuffle (`shuffle` in Quiz.tsx) -/

/-- Swap the entries at positions `i` and `j` of a list of strings
(out-of-range reads give `""`, matching the total embedding of
`[a[i], a[j]] = [a[j], a[i]]` on in-range indices). -/
def listSwap (a : List String) (i j : Nat) : List String :=
  (a.set i (a.getD j "")).set j (a.getD i "")

/-- The Fisher-Yates loop `for (let i = a.length - 1; i > 0; i--)`:
at index `i+1` the source draws `j = Math.floor(Math.random() * (i+2))`,
a value in `[0, i+1]`; the random source is embedded as a stream
`js : Nat → Nat` reduced mod `i+2` to land in the same range. -/
def fyAux (js : Nat → Nat) : Nat → List String → List String
  | 0, a => a
  | i+1, a => fyAux js i (listSwap a (i+1) (js (i+1) % (i+2)))

/-- `shuffle` from Quiz.tsx, with the random draws made explicit. -/
def shuffle (js : Nat → Nat) (a : List String) : List String :=
  fyAux js (a.length - 1) a

/-! ## Quiz stage (Quiz.tsx) -/

/-- A multiple-choice question (type `MCQ` in Quiz.tsx). -/
structure MCQ where
  q : String
  choices : List String
  correct : String
deriving DecidableEq

/-- The four-question bank `MCQS` of Quiz.tsx (choice order as in the
source; the per-step display shuffle does not affect grading). -/
def MCQS : List MCQ := [
  { q := "Before discussing PHI with a caller, what must you do first?",
    choices := [
      "Verify two patient identifiers (e.g., full name and DOB).",
      "Ask for the insurance group number.",
      "Place the caller on hold and transfer to billing.",
      "Confirm the provider’s NPI."],
    correct := "Verify two patient identifiers (e.g., full name and DOB)." },
  { q := "A spouse requests the patient’s records. What should you confirm next?",
    choices := [
      "There is a valid authorization or documented permission allowing spouse access.",
      "That the spouse knows the last visit date.",
      "That the spouse is listed as emergency contact for billing.",
      "That the spouse can pick up any records they want."],
    correct := "There is a valid authorization or documented permission allowing spouse access." },
  { q := "The patient wants records by email today. What is the best next step?",
    choices := [
      "Confirm scope & delivery, verify ID/authorization, and follow policy timelines.",
      "Email everything immediately to be helpful.",
      "Decline all email requests for security reasons.",
      "Send only the problem list without documentation."],
    correct := "Confirm scope & delivery, verify ID/authorization, and follow policy timelines." },
  { q := "For minimum necessary, you should:",
    choices := [
      "Disclose only what’s needed to fulfill the stated purpose.",
      "Provide the entire chart for convenience.",
      "Refuse all disclosures unless in person.",
      "Share everything if the caller states it’s urgent."],
    correct := "Disclose only what’s needed to fulfill the stated purpose." }]

/-- `CORRECT_ORDER` of Quiz.tsx: the unique correct sequence of the
ordering task. -/
def CORRECT_ORDER : List String := [
  "Verify patient identity (two identifiers).",
  "Confirm authorization/permission is valid.",
  "Clarify request scope & preferred delivery method.",
  "Process request (fees/timelines per policy).",
  "Log disclosure per policy."]

/-- `randomizedStart` of Quiz.tsx: shuffle once; if the result happens to
equal `CORRECT_ORDER`, shuffle once more and return that second draw
unconditionally. `js1`, `js2` are the random streams of the two draws. -/
def randomizedStart (js1 js2 : Nat → Nat) : List String :=
  let start := shuffle js1 CORRECT_ORDER
  if start = CORRECT_ORDER then shuffle js2 CORRECT_ORDER else start

/-- The state of the Quiz component: `step` (0-3 MCQ page, 4 reorder
page, 5 finished summary), MCQ `score`, current radio `selected`, and the
working `order` of the reorder task. -/
structure QuizState where
  step : Nat
  score : Nat
  selected : Option String
  order : List String
deriving DecidableEq

/-- `isOrderCorrect` of Quiz.tsx: `JSON.stringify(order) ===
JSON.stringify(CORRECT_ORDER)`; on arrays of strings `JSON.stringify`
is injective, so this is list equality. -/
def isOrderCorrect (order : List String) : Bool :=
  order == CORRECT_ORDER

/-- `submitMCQ` of Quiz.tsx: no-op when nothing is selected; otherwise
add a point iff the selection equals the current question's correct
answer, clear the selection, and advance (to the reorder page after the
last question). -/
def submitMCQ (s : QuizState) : QuizState :=
  match s.selected with
  | none => s
  | some sel =>
    let isCorrect := sel = (MCQS.getD s.step ⟨"", [], ""⟩).correct
    let score' := if isCorrect then s.score + 1 else s.score
    if s.step < MCQS.length - 1 then
      { s with score := score', selected := none, step := s.step + 1 }
    else
      { s with score := score', selected := none, step := MCQS.length }

/-- `submitReorder` of Quiz.tsx: a no-op unless the working order equals
`CORRECT_ORDER`; when it does, move to the finished summary page. -/
def submitReorder (s : QuizState) : QuizState :=
  if isOrderCorrect s.order then { s with step := MCQS.length + 1 } else s

/-- Select an answer on the current MCQ page and press Submit. -/
def selectThenSubmit (s : QuizState) (a : String) : QuizState :=
  submitMCQ { s with selected := some a }

/-- Answer the MCQ pages in sequence starting from the initial state
(step 0, score 0) with working order `start`. -/
def runQuiz (start : List String) (answers : List String) : QuizState :=
  answers.foldl selectThenSubmit ⟨0, 0, none, start⟩

/-- The number of answers in `answers` (aligned with question index
`k`, `k+1`, ...) that equal the corresponding question's correct
answer. -/
def countFrom : Nat → List String → Nat
  | _, [] => 0
  | k, a :: rest =>
    (if a = (MCQS.getD k ⟨"", [], ""⟩).correct then 1 else 0) + countFrom (k+1) rest

/-- Payloads carried by stage-completion callbacks to the UI layer. -/
inductive StagePayload where
  | scoreVal (n : Nat)
  | nameVal (s : String)
  | unit
deriving DecidableEq

/-- The Quiz summary page's button `onClick={() => onComplete(score)}`:
the emitted payload is the MCQ score. -/
def quizFinishPayload (s : QuizState) : StagePayload :=
  StagePayload.scoreVal s.score

/-- The JS guard `!name.trim()`: the trimmed name is empty exactly when
every character of the name is whitespace. -/
def isBlank (name : String) : Bool :=
  name.data.all (fun c => c.isWhitespace)

/-- The Certificate Finish button: disabled while `!name.trim()`;
when enabled its click handler calls `onDone()` with no arguments,
so the emitted payload carries nothing. -/
def certificateFinish (name : String) : Option StagePayload :=
  if isBlank name then none else some StagePayload.unit

/-! ## Sequential composite: the 3-step phone call (DoctorOfficeRoom) -/

/-- One step of the phone-call dialog (an entry of `callSteps`). -/
structure CallStep where
  q : String
  choices : List String
  correct : String
deriving DecidableEq

/-- The `callSteps` array of DoctorOfficeRoom. -/
def callSteps : List CallStep := [
  { q := "What should you do first?",
    choices := [
      "Verify two identifiers (name + DOB).",
      "Ask what records they want before identifying them.",
      "Put caller on hold immediately."],
    correct := "Verify two identifiers (name + DOB)." },
  { q := "Caller identified as patient’s spouse; what do you confirm next?",
    choices := [
      "Authorization on file or signed ROI allowing spouse access.",
      "Insurance group number.",
      "The provider’s NPI."],
    correct := "Authorization on file or signed ROI allowing spouse access." },
  { q := "They want records emailed today. Best response?",
    choices := [
      "Confirm scope & delivery method, review ID/authorization, and give timeline following policy.",
      "Say you’ll email anything they want right now.",
      "Decline all requests over the phone."],
    correct := "Confirm scope & delivery method, review ID/authorization, and give timeline following policy." }]

/-- State of the phone-call composite: active step index, current radio
selection, and the done flag `callComplete`. -/
structure CallState where
  callIndex : Nat
  callSelected : Option String
  callComplete : Bool
deriving DecidableEq

/-- What a `submitCall` invocation signals to the learner. -/
inductive CallResult where
  | noSelection
  | retryRequired
  | advanced
  | completed
deriving DecidableEq

/-- `submitCall` of DoctorOfficeRoom: no-op without a selection; on a
wrong selection it alerts "Not quite — try again!" and returns (state
untouched); on a correct selection it either advances to the next step
and clears the selection, or (on the last step) sets `callComplete`. -/
def submitCall (s : CallState) : CallState × CallResult :=
  match s.callSelected with
  | none => (s, CallResult.noSelection)
  | some sel =>
    if sel ≠ (callSteps.getD s.callIndex ⟨"", [], ""⟩).correct then
      (s, CallResult.retryRequired)
    else if s.callIndex < callSteps.length - 1 then
      ({ callIndex := s.callIndex + 1, callSelected := none,
         callComplete := s.callComplete }, CallResult.advanced)
    else
      ({ s with callComplete := true }, CallResult.completed)

/-! ## Binder composite: the coding binder (DoctorOfficeRoom) -/

/-- A coding mini-case (type `CodingCase`); `choices` are shuffled for
display in the source, which does not affect grading. -/
structure CodingCase where
  id : String
  prompt : String
  choices : List String
  correct : String
deriving DecidableEq

/-- The four coding cases of `codingCases` (base order; the source
shuffles the list for display). -/
def codingCasesBase : List CodingCase := [
  { id := "A1",
    prompt := "Established pt follow-up for hypertension, stable control.",
    choices := ["99213 + I10", "99203 + J06.9", "99214 + E11.9"],
    correct := "99213 + I10" },
  { id := "A2",
    prompt := "Established pt BP check, med refill; no complicating factors.",
    choices := ["99213 + I10", "99203 + J06.9", "99212 + Z76.0"],
    correct := "99213 + I10" },
  { id := "B1",
    prompt := "NEW patient with acute URI, low complexity.",
    choices := ["99203 + J06.9", "99213 + I10", "99204 + J45.909"],
    correct := "99203 + J06.9" },
  { id := "B2",
    prompt := "NEW patient, acute URI symptoms, exam and counseling provided.",
    choices := ["99203 + J06.9", "99214 + J06.9", "99212 + Z20.822"],
    correct := "99203 + J06.9" }]

/-- Look up the last-submitted answer for case `id` in the
`codingAnswers` record (embedded as an association list whose head is
the most recent entry for each key). -/
def lookupAnswer (answers : List (String × String)) (id : String) : Option String :=
  (answers.find? (fun p => p.1 = id)).map (fun p => p.2)

/-- `codingAllCorrect` of DoctorOfficeRoom:
`codingCases.length > 0 && codingCases.every(c => codingAnswers[c.id] === c.correct)`. -/
def codingAllCorrect (cases : List CodingCase) (answers : List (String × String)) : Bool :=
  decide (0 < cases.length) &&
    cases.all (fun c => lookupAnswer answers c.id == some c.correct)

/-- State of the coding-binder composite: the answers record, whether
the binder modal is open, and the latched done flag. -/
structure CodingState where
  codingAnswers : List (String × String)
  codingOpen : Bool
  codingDone : Bool
deriving DecidableEq

/-- Learner actions on the coding binder. -/
inductive CodingAction where
  | openBinder
  | closeBinder
  | answer (caseId : String) (choice : String)
deriving DecidableEq

/-- The `useEffect` that latches the done flag: whenever
`codingAllCorrect && codingOpen`, set `codingDone` (it is never
unset). -/
def applyCodingEffect (cases : List CodingCase) (s : CodingState) : CodingState :=
  if codingAllCorrect cases s.codingAnswers && s.codingOpen then
    { s with codingDone := true }
  else s

/-- One learner action on the binder, followed by the latching effect.
The `answer` action models the radio `onChange`
(`setCodingAnswers(prev => ({...prev, [c.id]: ch}))`), which overwrites
the case's prior answer; radios only exist while the modal is open. -/
def stepCoding (cases : List CodingCase) (s : CodingState) : CodingAction → CodingState
  | CodingAction.openBinder => applyCodingEffect cases { s with codingOpen := true }
  | CodingAction.closeBinder => applyCodingEffect cases { s with codingOpen := false }
  | CodingAction.answer id ch =>
    if s.codingOpen then
      applyCodingEffect cases
        { s with codingAnswers := (id, ch) :: s.codingAnswers.filter (fun p => p.1 ≠ id) }
    else s

/-- Run a sequence of binder actions from the initial state (no answers,
modal closed, not done). -/
def runCoding (cases : List CodingCase) (acts : List CodingAction) : CodingState :=
  acts.foldl (stepCoding cases) ⟨[], false, false⟩

/-! ## Audit composite part A: the chart list (DoctorOfficeRoom) -/

/-- A row of the chart-audit list (type `ChartRow`). -/
structure ChartRow where
  id : String
  label : String
  isDefect : Bool
deriving DecidableEq

/-- The ten-chart universe `charts` (base order; the source shuffles it
for display, so theorems take any permutation of this list). Exactly
charts 3 and 5 are defective. -/
def chartsBase : List ChartRow := [
  { id := "1", label := "Chart 1 — Signed, dated, correct patient", isDefect := false },
  { id := "2", label := "Chart 2 — Signed, dated, correct patient", isDefect := false },
  { id := "3", label := "Chart 3 — Missing provider signature", isDefect := true },
  { id := "4", label := "Chart 4 — Signed, date present", isDefect := false },
  { id := "5", label := "Chart 5 — DOB mismatch vs. request", isDefect := true },
  { id := "6", label := "Chart 6 — Signed, complete", isDefect := false },
  { id := "7", label := "Chart 7 — Signed, complete", isDefect := false },
  { id := "8", label := "Chart 8 — Signed, complete", isDefect := false },
  { id := "9", label := "Chart 9 — Signed, complete", isDefect := false },
  { id := "10", label := "Chart 10 — Signed, complete", isDefect := false }]

/-- State of the chart-audit composite: the selected chart ids, the set
of correctly judged page keys (`foundIssues`), and the done flag. -/
structure AuditState where
  auditSelected : List String
  foundIssues : List String
  auditDone : Bool
deriving DecidableEq

/-- What `handleAuditCheck` signals via its alerts / state change. -/
inductive AuditMsg where
  | invalidSelectionCount
  | wrongPair
  | needMorePages
  | passed
deriving DecidableEq

/-- The charts currently ticked: `charts.filter(c => auditSelected.includes(c.id))`. -/
def pickedCharts (charts : List ChartRow) (s : AuditState) : List ChartRow :=
  charts.filter (fun c => s.auditSelected.contains c.id)

/-- `handleAuditCheck` of DoctorOfficeRoom: reject unless exactly two
charts are picked; reject unless both picked charts are defective;
reject unless at least three page judgments are correct; otherwise set
`auditDone`. -/
def handleAuditCheck (charts : List ChartRow) (s : AuditState) : AuditState × AuditMsg :=
  let picked := pickedCharts charts s
  if picked.length ≠ 2 then (s, AuditMsg.invalidSelectionCount)
  else if ¬ (picked.all (fun p => p.isDefect)) then (s, AuditMsg.wrongPair)
  else if s.foundIssues.length < 3 then (s, AuditMsg.needMorePages)
  else ({ s with auditDone := true }, AuditMsg.passed)

/-! ## Audit composite part B: document review (DoctorOfficeRoom) -/

/-- A page of a sample document. -/
structure DocPage where
  id : String
  title : String
  body : String
deriving DecidableEq

/-- A real issue planted on one page of a document. -/
structure DocIssue where
  id : String
  pageId : String
  label : String
deriving DecidableEq

/-- A sample document (type `ChartDoc`): pages plus at most one real
issue per page. -/
structure ChartDoc where
  id : String
  title : String
  pages : List DocPage
  issues : List DocIssue
deriving DecidableEq

/-- The five sample documents `chartDocs` of DoctorOfficeRoom (bodies
elided to `""`: no grading rule reads them). -/
def chartDocs : List ChartDoc := [
  { id := "D1", title := "D1 — Progress Note",
    pages := [⟨"p1", "Header", ""⟩, ⟨"p2", "Assessment", ""⟩, ⟨"p3", "Signature", ""⟩],
    issues := [⟨"i1", "p3", "Missing provider signature"⟩] },
  { id := "D2", title := "D2 — ROI Packet",
    pages := [⟨"p1", "Request", ""⟩, ⟨"p2", "Authorization", ""⟩],
    issues := [⟨"i1", "p2", "No valid authorization for spouse"⟩] },
  { id := "D3", title := "D3 — Lab Result",
    pages := [⟨"p1", "Header", ""⟩, ⟨"p2", "Result", ""⟩],
    issues := [⟨"i1", "p1", "DOB mismatch vs. request"⟩] },
  { id := "D4", title := "D4 — Imaging Report",
    pages := [⟨"p1", "Header", ""⟩, ⟨"p2", "Footer", ""⟩],
    issues := [⟨"i1", "p2", "Missing signature date"⟩] },
  { id := "D5", title := "D5 — Discharge Summary",
    pages := [⟨"p1", "Header", ""⟩, ⟨"p2", "Attestation", ""⟩, ⟨"p3", "Countersign", ""⟩],
    issues := [⟨"i1", "p3", "Missing supervising MD countersignature"⟩] }]

/-- The per-page selection-storage key `` `${docId}:${pageId}` ``. -/
def pageKey (docId pageId : String) : String :=
  docId ++ ":" ++ pageId

/-- The value of the real-issue radio option, `` `${docId}:${realIssue.id}` ``. -/
def realOptionValue (docId : String) (iss : DocIssue) : String :=
  docId ++ ":" ++ iss.id

/-- The value of the "No issues on this page" radio option,
`` `${docId}:${pageId}:none` ``. -/
def noIssuesValue (docId pageId : String) : String :=
  docId ++ ":" ++ pageId ++ ":none"

/-- `correctValue` of the doc viewer: the real issue's option value if
the page has a real issue (`issues.find(i => i.pageId === pageId)`),
otherwise the "no issues" option value. -/
def correctValue (doc : ChartDoc) (pageId : String) : String :=
  match doc.issues.find? (fun i => i.pageId == pageId) with
  | some realIssue => realOptionValue doc.id realIssue
  | none => noIssuesValue doc.id pageId

/-- State of the document-review family: the per-page radio selections
(association list, head = most recent entry per key) and the
`foundIssues` list of correctly judged page keys. -/
structure ReviewState where
  pageSelections : List (String × String)
  foundIssues : List String
deriving DecidableEq

/-- The radio `onChange` of the doc viewer: record the selection for
this page (overwriting any prior one), remove this page's key from
`foundIssues`, and re-add it iff the chosen value equals the page's
correct value. -/
def selectPageOption (doc : ChartDoc) (pageId : String) (optValue : String)
    (s : ReviewState) : ReviewState :=
  let k := pageKey doc.id pageId
  let without := s.foundIssues.filter (fun x => x ≠ k)
  { pageSelections := (k, optValue) :: s.pageSelections.filter (fun p => p.1 ≠ k),
    foundIssues := if optValue = correctValue doc pageId then without ++ [k] else without }

/-- Run a sequence of page-option selections from the initial review
state (no selections, no credited pages). -/
def runReview (sels : List (ChartDoc × String × String)) : ReviewState :=
  sels.foldl (fun s sel => selectPageOption sel.1 sel.2.1 sel.2.2 s) ⟨[], []⟩

/-! ## Theorems -/

/-- Claim C1: the "resample until different" construction of
`randomizedStart` is claimed never to present `CORRECT_ORDER`. The code
retries the shuffle only once, so the random source that picks `j = i`
at every Fisher-Yates step of both draws (each draw is then the
identity permutation) makes `randomizedStart` equal to `CORRECT_ORDER`,
contradicting the code's own comment "Ensure it's not accidentally
correct". -/
theorem C1_randomizedStart_can_equal_correct_order :
    randomizedStart (fun i => i) (fun i => i) = CORRECT_ORDER := by
  decide

/-- One MCQ submission: the score grows by exactly 1 when the selected
answer equals the current question's correct answer (0 otherwise), and
the page index advances by one. -/
theorem selectThenSubmit_spec (s : QuizState) (a : String) (h : s.step < 4) :
    (selectThenSubmit s a).score
        = s.score + (if a = (MCQS.getD s.step ⟨"", [], ""⟩).correct then 1 else 0) ∧
    (selectThenSubmit s a).step = s.step + 1 := by
  have hlen : MCQS.length = 4 := rfl
  unfold selectThenSubmit submitMCQ
  simp only [hlen]
  split_ifs <;> refine ⟨?_, ?_⟩ <;> simp <;> omega

/-- Folding MCQ submissions: the score accumulates one point per correct
answer and the step counter advances once per submission. -/
theorem runQuiz_fold (answers : List String) :
    ∀ s : QuizState, s.step + answers.length ≤ 4 →
      (answers.foldl selectThenSubmit s).score = s.score + countFrom s.step answers ∧
      (answers.foldl selectThenSubmit s).step = s.step + answers.length := by
  induction answers with
  | nil => intro s _; simp [countFrom]
  | cons a rest ih =>
    intro s h
    have hstep : s.step < 4 := by
      have : (a :: rest).length = rest.length + 1 := List.length_cons a rest
      omega
    obtain ⟨hsc, hst⟩ := selectThenSubmit_spec s a hstep
    have hle : (selectThenSubmit s a).step + rest.length ≤ 4 := by
      rw [hst]
      have : (a :: rest).length = rest.length + 1 := List.length_cons a rest
      omega
    obtain ⟨ih1, ih2⟩ := ih (selectThenSubmit s a) hle
    refine ⟨?_, ?_⟩
    · rw [List.foldl_cons, ih1, hsc, hst]
      simp only [countFrom]
      omega
    · rw [List.foldl_cons, ih2, hst, List.length_cons]
      omega

/-- Claim C8: quiz-stage scoring is purely additive — each MCQ
submission adds one point iff the submitted answer equals that
question's correct answer; a full run over 4 answers scores exactly the
number of correct answers and lands on the reorder page; the ordering
task never changes the score and is a no-op unless solved; and the
completion payload is the numeric score. -/
theorem C8_quiz_scoring :
    (∀ (s : QuizState) (a : String), s.step < 4 →
        (selectThenSubmit s a).score
          = s.score + (if a = (MCQS.getD s.step ⟨"", [], ""⟩).correct then 1 else 0)) ∧
    (∀ (start answers : List String), answers.length = 4 →
        (runQuiz start answers).score = countFrom 0 answers ∧
        (runQuiz start answers).step = 4) ∧
    (∀ s : QuizState, (submitReorder s).score = s.score ∧
        (isOrderCorrect s.order = false → submitReorder s = s)) ∧
    (∀ s : QuizState, quizFinishPayload (submitReorder s) = StagePayload.scoreVal s.score) := by
  refine ⟨?_, ?_, ?_, ?_⟩
  · intro s a h
    exact (selectThenSubmit_spec s a h).1
  · intro start answers h
    have := runQuiz_fold answers ⟨0, 0, none, start⟩ (by simpa using Nat.le_of_eq h)
    unfold runQuiz
    constructor
    · simpa using this.1
    · rw [this.2, h]
  · intro s
    unfold submitReorder
    by_cases h : isOrderCorrect s.order <;> simp [h]
  · intro s
    unfold quizFinishPayload submitReorder
    by_cases h : isOrderCorrect s.order <;> simp [h]

/-- Witness for C8: answering all four questions correctly scores 4 and
reaches the reorder page. -/
theorem C8_quiz_scoring_witness :
    (runQuiz CORRECT_ORDER [
        "Verify two patient identifiers (e.g., full name and DOB).",
        "There is a valid authorization or documented permission allowing spouse access.",
        "Confirm scope & delivery, verify ID/authorization, and follow policy timelines.",
        "Disclose only what’s needed to fulfill the stated purpose."]).score
      = countFrom 0 [
        "Verify two patient identifiers (e.g., full name and DOB).",
        "There is a valid authorization or documented permission allowing spouse access.",
        "Confirm scope & delivery, verify ID/authorization, and follow policy timelines.",
        "Disclose only what’s needed to fulfill the stated purpose."] ∧
    countFrom 0 [
        "Verify two patient identifiers (e.g., full name and DOB).",
        "There is a valid authorization or documented permission allowing spouse access.",
        "Confirm scope & delivery, verify ID/authorization, and follow policy timelines.",
        "Disclose only what’s needed to fulfill the stated purpose."] = 4 :=
  ⟨(C8_quiz_scoring.2.1 CORRECT_ORDER _ (by decide)).1, by decide⟩

/-- Claim C9: the ordering check passes iff the working sequence equals
`CORRECT_ORDER` element-by-element; every single transposition of two
positions of `CORRECT_ORDER` fails the check; and submitting from the
reorder page completes the task iff the exact-equality check holds. -/
theorem C9_ordering_exact_equality :
    (∀ order : List String, isOrderCorrect order = true ↔ order = CORRECT_ORDER) ∧
    (∀ i j : Fin 5, i < j →
        isOrderCorrect (listSwap CORRECT_ORDER i.val j.val) = false) ∧
    (∀ s : QuizState, s.step = 4 →
        (((submitReorder s).step = 5) ↔ s.order = CORRECT_ORDER)) := by
  refine ⟨?_, ?_, ?_⟩
  · intro order
    simp [isOrderCorrect]
  · decide
  · intro s hs
    unfold submitReorder
    by_cases h : s.order = CORRECT_ORDER <;>
      simp [isOrderCorrect, h, hs, MCQS]

/-- Witness for C9: swapping the first two workflow steps fails the
check, and submitting with the correct order completes the task. -/
theorem C9_ordering_exact_equality_witness :
    isOrderCorrect (listSwap CORRECT_ORDER (0 : Fin 5).val (1 : Fin 5).val) = false ∧
    ((submitReorder ⟨4, 3, none, CORRECT_ORDER⟩).step = 5 ↔
      (⟨4, 3, none, CORRECT_ORDER⟩ : QuizState).order = CORRECT_ORDER) :=
  ⟨C9_ordering_exact_equality.2.1 0 1 (by decide),
   C9_ordering_exact_equality.2.2 ⟨4, 3, none, CORRECT_ORDER⟩ rfl⟩

/-- Claim C2, counterexample: submitting the wrong answer "Put caller on
hold immediately." at the first call step signals a retry but does NOT
clear the learner's selection — the state, selection included, is
returned untouched, contradicting "selection is cleared so the learner
must re-choose". -/
theorem C2_call_selection_not_cleared :
    (submitCall ⟨0, some "Put caller on hold immediately.", false⟩).2
        = CallResult.retryRequired ∧
    (submitCall ⟨0, some "Put caller on hold immediately.", false⟩).1.callSelected
        = some "Put caller on hold immediately." := by
  decide

/-- Claim C2 (amended): with a selection present, submitting an
incorrect answer signals a retry and leaves the whole state unchanged
(step index and selection retained); submitting the correct answer on a
non-final step advances and clears the selection; submitting the
correct answer on the last step marks the composite done. -/
theorem C2_call_submission (s : CallState) (sel : String)
    (hsel : s.callSelected = some sel) :
    (sel ≠ (callSteps.getD s.callIndex ⟨"", [], ""⟩).correct →
      submitCall s = (s, CallResult.retryRequired)) ∧
    (sel = (callSteps.getD s.callIndex ⟨"", [], ""⟩).correct → s.callIndex < 2 →
      submitCall s = (⟨s.callIndex + 1, none, s.callComplete⟩, CallResult.advanced)) ∧
    (sel = (callSteps.getD s.callIndex ⟨"", [], ""⟩).correct → ¬ s.callIndex < 2 →
      submitCall s = (⟨s.callIndex, some sel, true⟩, CallResult.completed)) := by
  have hlen : callSteps.length = 3 := rfl
  refine ⟨?_, ?_, ?_⟩
  · intro h1
    unfold submitCall
    rw [hsel]
    dsimp only
    rw [if_pos h1]
  · intro h1 h2
    have hlt : s.callIndex < callSteps.length - 1 := by rw [hlen]; omega
    unfold submitCall
    rw [hsel]
    dsimp only
    rw [if_neg (fun hn => hn h1), if_pos hlt]
  · intro h1 h2
    have hlt : ¬ s.callIndex < callSteps.length - 1 := by rw [hlen]; omega
    unfold submitCall
    rw [hsel]
    dsimp only
    rw [if_neg (fun hn => hn h1), if_neg hlt]

/-- Witness for C2 (amended): a correct first answer advances with the
selection cleared; a wrong first answer signals retry with the state,
selection included, untouched. -/
theorem C2_call_submission_witness :
    submitCall ⟨0, some "Verify two identifiers (name + DOB).", false⟩
        = (⟨1, none, false⟩, CallResult.advanced) ∧
    submitCall ⟨0, some "Put caller on hold immediately.", false⟩
        = (⟨0, some "Put caller on hold immediately.", false⟩, CallResult.retryRequired) :=
  ⟨(C2_call_submission ⟨0, some "Verify two identifiers (name + DOB).", false⟩
      "Verify two identifiers (name + DOB)." rfl).2.1 (by decide) (by decide),
   (C2_call_submission ⟨0, some "Put caller on hold immediately.", false⟩
      "Put caller on hold immediately." rfl).1 (by decide)⟩

/-- Claim C3, counterexample: the Certificate stage's completion
callback (`onDone()`, no arguments) does not carry the captured name —
the emitted payload at name "Alice" is not the name payload, and two
different captured names produce identical emissions. -/
theorem C3_certificate_payload_not_name :
    certificateFinish "Alice" ≠ some (StagePayload.nameVal "Alice") ∧
    certificateFinish "Alice" = certificateFinish "Bob" := by
  decide

/-- Claim C3 (amended): the Certificate completion callback carries no
payload — the captured name only gates the Finish button (disabled iff
the trimmed name is empty) and is not passed — while the Quiz stage's
completion callback does carry the numeric score. -/
theorem C3_stage_payloads :
    (∀ name : String, isBlank name = false → certificateFinish name = some StagePayload.unit) ∧
    (∀ name : String, isBlank name = true → certificateFinish name = none) ∧
    (∀ s : QuizState, quizFinishPayload s = StagePayload.scoreVal s.score) := by
  refine ⟨?_, ?_, ?_⟩
  · intro name h
    unfold certificateFinish
    rw [h]
    rfl
  · intro name h
    unfold certificateFinish
    rw [h]
    rfl
  · intro s
    rfl

/-- Witness for C3 (amended): a nonempty name enables Finish and emits
the payload-free event; a blank name keeps the button disabled. -/
theorem C3_stage_payloads_witness :
    certificateFinish "Alice" = some StagePayload.unit ∧
    certificateFinish "  " = none :=
  ⟨C3_stage_payloads.1 "Alice" (by decide),
   C3_stage_payloads.2.1 "  " (by decide)⟩

/-- `handleAuditCheck` unfolded to its decision tree. -/
theorem handleAuditCheck_cases (charts : List ChartRow) (s : AuditState) :
    handleAuditCheck charts s =
      if (pickedCharts charts s).length ≠ 2 then (s, AuditMsg.invalidSelectionCount)
      else if ¬ ((pickedCharts charts s).all (fun p => p.isDefect)) then
        (s, AuditMsg.wrongPair)
      else if s.foundIssues.length < 3 then (s, AuditMsg.needMorePages)
      else ({ s with auditDone := true }, AuditMsg.passed) := rfl

/-- Any permutation of the chart universe contains exactly two
defective charts. -/
theorem defects_length_two (charts : List ChartRow) (hp : charts.Perm chartsBase) :
    (charts.filter (fun c => c.isDefect)).length = 2 := by
  have hperm : (charts.filter (fun c => c.isDefect)).Perm
      (chartsBase.filter (fun c => c.isDefect)) := hp.filter (fun c => c.isDefect)
  rw [hperm.length_eq]
  decide

/-- Over any permutation of the chart universe, the picked charts are
two charts that are all defective iff they are exactly the defective
charts. -/
theorem picked_eq_defects_iff (charts : List ChartRow) (s : AuditState)
    (hp : charts.Perm chartsBase) :
    ((pickedCharts charts s).length = 2 ∧
      (pickedCharts charts s).all (fun p => p.isDefect) = true) ↔
    pickedCharts charts s = charts.filter (fun c => c.isDefect) := by
  have hdl := defects_length_two charts hp
  constructor
  · rintro ⟨hlen, hall⟩
    have hsub : List.Sublist (pickedCharts charts s) charts := List.filter_sublist charts
    have hsub2 : List.Sublist ((pickedCharts charts s).filter (fun c => c.isDefect))
        (charts.filter (fun c => c.isDefect)) := List.Sublist.filter _ hsub
    have hself : (pickedCharts charts s).filter (fun c => c.isDefect)
        = pickedCharts charts s := by
      apply List.filter_eq_self.mpr
      intro a ha
      exact List.all_eq_true.mp hall a ha
    rw [hself] at hsub2
    exact hsub2.eq_of_length (by rw [hlen, hdl])
  · intro he
    constructor
    · rw [he, hdl]
    · rw [he]
      apply List.all_eq_true.mpr
      intro a ha
      exact (List.mem_filter.mp ha).2

/-- The done flag after an audit submission, as a Boolean formula. -/
theorem handleAuditCheck_done_eq (charts : List ChartRow) (s : AuditState) :
    (handleAuditCheck charts s).1.auditDone
      = (s.auditDone ||
          (decide ((pickedCharts charts s).length = 2) &&
           (pickedCharts charts s).all (fun p => p.isDefect) &&
           decide (3 ≤ s.foundIssues.length))) := by
  rw [handleAuditCheck_cases]
  by_cases h1 : (pickedCharts charts s).length = 2
  · by_cases h2 : (pickedCharts charts s).all (fun p => p.isDefect) = true
    · by_cases h3 : s.foundIssues.length < 3
      · rw [if_neg (not_not_intro h1), if_neg (not_not_intro h2), if_pos h3]
        simp [h1, h2, show ¬ (3 ≤ s.foundIssues.length) by omega]
      · rw [if_neg (not_not_intro h1), if_neg (not_not_intro h2), if_neg h3]
        simp [h1, h2, show 3 ≤ s.foundIssues.length by omega]
    · rw [if_neg (not_not_intro h1), if_pos h2]
      simp only [Bool.not_eq_true] at h2
      simp [h2]
  · rw [if_pos h1]
    simp [h1]

/-- Claim C4: the audit composite becomes done on a submission iff the
picked charts are exactly the defective pair and at least three page
judgments are credited; a submission with the correct pair but fewer
than three credited pages leaves the state unchanged. -/
theorem C4_audit_completion (charts : List ChartRow) (s : AuditState)
    (hp : charts.Perm chartsBase) (hd : s.auditDone = false) :
    ((handleAuditCheck charts s).1.auditDone = true ↔
      (pickedCharts charts s = charts.filter (fun c => c.isDefect) ∧
        3 ≤ s.foundIssues.length)) ∧
    (pickedCharts charts s = charts.filter (fun c => c.isDefect) →
      s.foundIssues.length < 3 → (handleAuditCheck charts s).1 = s) := by
  have key := picked_eq_defects_iff charts s hp
  constructor
  · rw [handleAuditCheck_done_eq, hd]
    simp only [Bool.false_or, Bool.and_eq_true, decide_eq_true_eq]
    constructor
    · rintro ⟨⟨hl, ha⟩, hg⟩
      exact ⟨key.mp ⟨hl, ha⟩, hg⟩
    · rintro ⟨he, hg⟩
      obtain ⟨hl, ha⟩ := key.mpr he
      exact ⟨⟨hl, ha⟩, hg⟩
  · intro he hlt
    obtain ⟨h1, h2⟩ := key.mpr he
    rw [handleAuditCheck_cases,
      if_neg (not_not_intro h1), if_neg (not_not_intro h2), if_pos hlt]

/-- Witness for C4: picking charts 3 and 5 with three credited pages
completes the audit; with no credited pages the state is unchanged. -/
theorem C4_audit_completion_witness :
    (handleAuditCheck chartsBase
        ⟨["3", "5"], ["D1:p3", "D2:p2", "D3:p1"], false⟩).1.auditDone = true ∧
    (handleAuditCheck chartsBase ⟨["3", "5"], [], false⟩).1
        = (⟨["3", "5"], [], false⟩ : AuditState) :=
  ⟨((C4_audit_completion chartsBase ⟨["3", "5"], ["D1:p3", "D2:p2", "D3:p1"], false⟩
      (List.Perm.refl _) rfl).1).mpr ⟨by decide, by decide⟩,
   (C4_audit_completion chartsBase ⟨["3", "5"], [], false⟩
      (List.Perm.refl _) rfl).2 (by decide) (by decide)⟩

/-- Claim C5: a submission whose picked-chart count is not 2 yields
`InvalidSelectionCount` with the state unchanged; a submission of
exactly two picked charts passes the multi-select part iff they are
exactly the defective pair; and the outcome depends only on the
selection's membership, not on the order the charts were selected in. -/
theorem C5_multiselect_exact (charts : List ChartRow) (s : AuditState)
    (hp : charts.Perm chartsBase) :
    ((pickedCharts charts s).length ≠ 2 →
      handleAuditCheck charts s = (s, AuditMsg.invalidSelectionCount)) ∧
    ((pickedCharts charts s).length = 2 →
      (((handleAuditCheck charts s).2 = AuditMsg.needMorePages ∨
          (handleAuditCheck charts s).2 = AuditMsg.passed) ↔
        pickedCharts charts s = charts.filter (fun c => c.isDefect))) ∧
    (∀ sel' : List String,
      (∀ x : String, sel'.contains x = s.auditSelected.contains x) →
      (handleAuditCheck charts { s with auditSelected := sel' }).2
          = (handleAuditCheck charts s).2 ∧
      (handleAuditCheck charts { s with auditSelected := sel' }).1.auditDone
          = (handleAuditCheck charts s).1.auditDone) := by
  have key := picked_eq_defects_iff charts s hp
  refine ⟨?_, ?_, ?_⟩
  · intro h1
    rw [handleAuditCheck_cases, if_pos h1]
  · intro h1
    rw [handleAuditCheck_cases, if_neg (not_not_intro h1)]
    by_cases h2 : (pickedCharts charts s).all (fun p => p.isDefect) = true
    · rw [if_neg (not_not_intro h2)]
      by_cases h3 : s.foundIssues.length < 3
      · rw [if_pos h3]
        constructor
        · intro _
          exact key.mp ⟨h1, h2⟩
        · intro _
          exact Or.inl rfl
      · rw [if_neg h3]
        constructor
        · intro _
          exact key.mp ⟨h1, h2⟩
        · intro _
          exact Or.inr rfl
    · rw [if_pos h2]
      constructor
      · rintro (h | h) <;> exact absurd h (by simp)
      · intro he
        exact absurd (key.mpr he).2 h2
  · intro sel' hcont
    have hpick : pickedCharts charts { s with auditSelected := sel' }
        = pickedCharts charts s := by
      unfold pickedCharts
      apply List.filter_congr
      intro c _
      exact hcont c.id
    simp only [handleAuditCheck_cases, hpick]
    by_cases h1 : (pickedCharts charts s).length = 2
    · by_cases h2 : (pickedCharts charts s).all (fun p => p.isDefect) = true
      · by_cases h3 : s.foundIssues.length < 3
        · simp only [if_neg (not_not_intro h1), if_neg (not_not_intro h2), if_pos h3]
          exact ⟨trivial, trivial⟩
        · simp only [if_neg (not_not_intro h1), if_neg (not_not_intro h2), if_neg h3]
          exact ⟨trivial, trivial⟩
      · simp only [if_neg (not_not_intro h1), if_pos h2]
        exact ⟨trivial, trivial⟩
    · simp only [if_pos h1]
      exact ⟨trivial, trivial⟩

/-- Witness for C5: picking charts 5 and 3 (in that selection order)
passes the multi-select part, and a single-chart pick is rejected. -/
theorem C5_multiselect_exact_witness :
    ((handleAuditCheck chartsBase ⟨["5", "3"], [], false⟩).2 = AuditMsg.needMorePages ∨
      (handleAuditCheck chartsBase ⟨["5", "3"], [], false⟩).2 = AuditMsg.passed) ∧
    handleAuditCheck chartsBase ⟨["3"], [], false⟩
        = (⟨["3"], [], false⟩, AuditMsg.invalidSelectionCount) :=
  ⟨((C5_multiselect_exact chartsBase ⟨["5", "3"], [], false⟩ (List.Perm.refl _)).2.1
      (by decide)).mpr (by decide),
   (C5_multiselect_exact chartsBase ⟨["3"], [], false⟩ (List.Perm.refl _)).1
      (by decide)⟩

/-- Claim C6: for every page of every document, the computed correct
option value is the real issue's option value when the page has a real
issue and the "no issues" option value otherwise; selecting an option
grades that page independently of the others; credit for a page is held
iff the latest selection equals its correct value (so re-selection
replaces the previous result and credit can be gained and lost); and
the stored selection for the page is overwritten by the latest pick. -/
theorem C6_page_grading (doc : ChartDoc) (pageId optValue : String) (s : ReviewState) :
    (∀ d ∈ chartDocs, ∀ p ∈ d.pages,
      (∃ iss ∈ d.issues, iss.pageId = p.id ∧
          correctValue d p.id = realOptionValue d.id iss) ∨
      ((¬ ∃ iss ∈ d.issues, iss.pageId = p.id) ∧
          correctValue d p.id = noIssuesValue d.id p.id)) ∧
    (pageKey doc.id pageId ∈ (selectPageOption doc pageId optValue s).foundIssues ↔
      optValue = correctValue doc pageId) ∧
    (∀ k : String, k ≠ pageKey doc.id pageId →
      (k ∈ (selectPageOption doc pageId optValue s).foundIssues ↔ k ∈ s.foundIssues)) ∧
    lookupAnswer (selectPageOption doc pageId optValue s).pageSelections
        (pageKey doc.id pageId) = some optValue := by
  refine ⟨by decide, ?_, ?_, ?_⟩
  · unfold selectPageOption
    by_cases hv : optValue = correctValue doc pageId <;>
      simp [hv, List.mem_append, List.mem_filter]
  · intro k hk
    unfold selectPageOption
    by_cases hv : optValue = correctValue doc pageId <;>
      simp [hv, List.mem_append, List.mem_filter, hk]
  · unfold selectPageOption lookupAnswer
    dsimp only
    rw [List.find?_cons_of_pos _ (by simp)]
    rfl

/-- Witness for C6: on document D1's signature page, picking the real
issue "D1:i1" earns credit for page key "D1:p3", then picking the fake
option on the same page revokes exactly that credit. -/
theorem C6_page_grading_witness :
    (pageKey "D1" "p3" ∈ (selectPageOption
        ⟨"D1", "D1 — Progress Note",
          [⟨"p1", "Header", ""⟩, ⟨"p2", "Assessment", ""⟩, ⟨"p3", "Signature", ""⟩],
          [⟨"i1", "p3", "Missing provider signature"⟩]⟩
        "p3" "D1:i1" ⟨[], []⟩).foundIssues) ∧
    ¬ (pageKey "D1" "p3" ∈ (selectPageOption
        ⟨"D1", "D1 — Progress Note",
          [⟨"p1", "Header", ""⟩, ⟨"p2", "Assessment", ""⟩, ⟨"p3", "Signature", ""⟩],
          [⟨"i1", "p3", "Missing provider signature"⟩]⟩
        "p3" "D1:p3:fake" ⟨[], ["D1:p3"]⟩).foundIssues) :=
  ⟨(C6_page_grading
      ⟨"D1", "D1 — Progress Note",
        [⟨"p1", "Header", ""⟩, ⟨"p2", "Assessment", ""⟩, ⟨"p3", "Signature", ""⟩],
        [⟨"i1", "p3", "Missing provider signature"⟩]⟩
      "p3" "D1:i1" ⟨[], []⟩).2.1.mpr (by decide),
   fun hmem =>
     absurd ((C6_page_grading
        ⟨"D1", "D1 — Progress Note",
          [⟨"p1", "Header", ""⟩, ⟨"p2", "Assessment", ""⟩, ⟨"p3", "Signature", ""⟩],
          [⟨"i1", "p3", "Missing provider signature"⟩]⟩
        "p3" "D1:p3:fake" ⟨[], ["D1:p3"]⟩).2.1.mp hmem) (by decide)⟩

/-- One page-option selection preserves distinctness of the credited
page keys: the handler removes the page's key before conditionally
re-adding it once. -/
theorem foundIssues_nodup_step (doc : ChartDoc) (pageId optValue : String)
    (s : ReviewState) (h : s.foundIssues.Nodup) :
    (selectPageOption doc pageId optValue s).foundIssues.Nodup := by
  unfold selectPageOption
  by_cases hv : optValue = correctValue doc pageId
  · dsimp only
    rw [if_pos hv, List.nodup_append]
    refine ⟨h.filter _, List.nodup_singleton _, ?_⟩
    intro a ha hb
    rw [List.mem_singleton] at hb
    subst hb
    have hne := (List.mem_filter.mp ha).2
    simp at hne
  · dsimp only
    rw [if_neg hv]
    exact h.filter _

/-- Claim C10: after any sequence of page-option selections, the list
of credited page keys contains no duplicates, so its length counts
distinct pages and cannot be inflated by re-selecting the correct
option on one page. -/
theorem C10_foundIssues_distinct (sels : List (ChartDoc × String × String)) :
    (runReview sels).foundIssues.Nodup := by
  unfold runReview
  suffices h : ∀ s : ReviewState, s.foundIssues.Nodup →
      (sels.foldl (fun s sel => selectPageOption sel.1 sel.2.1 sel.2.2 s) s).foundIssues.Nodup by
    exact h ⟨[], []⟩ List.nodup_nil
  induction sels with
  | nil =>
    intro s h
    exact h
  | cons a rest ih =>
    intro s h
    exact ih _ (foundIssues_nodup_step _ _ _ _ h)

/-- `applyCodingEffect` only touches the done flag. -/
theorem applyCodingEffect_answers (cases : List CodingCase) (u : CodingState) :
    (applyCodingEffect cases u).codingAnswers = u.codingAnswers := by
  unfold applyCodingEffect
  split_ifs <;> rfl

/-- `applyCodingEffect` leaves the open flag unchanged. -/
theorem applyCodingEffect_open (cases : List CodingCase) (u : CodingState) :
    (applyCodingEffect cases u).codingOpen = u.codingOpen := by
  unfold applyCodingEffect
  split_ifs <;> rfl

/-- `applyCodingEffect` never clears the done flag. -/
theorem applyCodingEffect_done_mono (cases : List CodingCase) (u : CodingState)
    (h : u.codingDone = true) : (applyCodingEffect cases u).codingDone = true := by
  unfold applyCodingEffect
  split_ifs
  · rfl
  · exact h

/-- `applyCodingEffect` sets the done flag when all answers are correct
and the binder is open. -/
theorem applyCodingEffect_done_of (cases : List CodingCase) (u : CodingState)
    (h1 : codingAllCorrect cases u.codingAnswers = true) (h2 : u.codingOpen = true) :
    (applyCodingEffect cases u).codingDone = true := by
  unfold applyCodingEffect
  rw [if_pos (by rw [h1, h2]; rfl)]

/-- A single binder action never clears the done flag. -/
theorem stepCoding_done_mono (cases : List CodingCase) (s : CodingState)
    (a : CodingAction) (h : s.codingDone = true) :
    (stepCoding cases s a).codingDone = true := by
  cases a with
  | openBinder =>
    exact applyCodingEffect_done_mono cases _ h
  | closeBinder =>
    exact applyCodingEffect_done_mono cases _ h
  | answer id ch =>
    simp only [stepCoding]
    by_cases hopen : s.codingOpen = true
    · rw [if_pos hopen]
      exact applyCodingEffect_done_mono cases _ h
    · rw [if_neg hopen]
      exact h

/-- Claim C7, counterexample: answer all four coding cases correctly
with the binder open (the composite latches done), then re-submit case
A1 with a wrong answer — the composite is still done although not every
last-submitted answer is correct, refuting the claimed "done iff every
last submission is correct". -/
theorem C7_binder_done_despite_wrong_answer :
    (runCoding codingCasesBase [
        CodingAction.openBinder,
        CodingAction.answer "A1" "99213 + I10",
        CodingAction.answer "A2" "99213 + I10",
        CodingAction.answer "B1" "99203 + J06.9",
        CodingAction.answer "B2" "99203 + J06.9",
        CodingAction.answer "A1" "99214 + E11.9"]).codingDone = true ∧
    codingAllCorrect codingCasesBase
      (runCoding codingCasesBase [
        CodingAction.openBinder,
        CodingAction.answer "A1" "99213 + I10",
        CodingAction.answer "A2" "99213 + I10",
        CodingAction.answer "B1" "99203 + J06.9",
        CodingAction.answer "B2" "99203 + J06.9",
        CodingAction.answer "A1" "99214 + E11.9"]).codingAnswers = false := by
  decide

/-- Claim C7 (amended): re-submission overwrites the sub-exercise's
stored answer; once the composite is done it remains done under any
further actions; and it becomes done whenever, after an action, the
binder is open and every sub-exercise's last-submitted answer is
correct. -/
theorem C7_binder_done (cases : List CodingCase) :
    (∀ (s : CodingState) (id ch : String), s.codingOpen = true →
        lookupAnswer (stepCoding cases s (CodingAction.answer id ch)).codingAnswers id
          = some ch) ∧
    (∀ (s : CodingState) (acts : List CodingAction), s.codingDone = true →
        (acts.foldl (stepCoding cases) s).codingDone = true) ∧
    (∀ (s : CodingState) (a : CodingAction),
        codingAllCorrect cases (stepCoding cases s a).codingAnswers = true →
        (stepCoding cases s a).codingOpen = true →
        (stepCoding cases s a).codingDone = true) := by
  refine ⟨?_, ?_, ?_⟩
  · intro s id ch hopen
    simp only [stepCoding]
    rw [if_pos hopen, applyCodingEffect_answers]
    unfold lookupAnswer
    rw [List.find?_cons_of_pos _ (by simp)]
    rfl
  · intro s acts
    induction acts generalizing s with
    | nil =>
      intro h
      exact h
    | cons a rest ih =>
      intro h
      exact ih _ (stepCoding_done_mono cases s a h)
  · intro s a hall hopen
    cases a with
    | openBinder =>
      simp only [stepCoding] at hall ⊢
      rw [applyCodingEffect_answers] at hall
      exact applyCodingEffect_done_of cases _ hall rfl
    | closeBinder =>
      simp only [stepCoding] at hopen
      rw [applyCodingEffect_open] at hopen
      simp at hopen
    | answer id ch =>
      simp only [stepCoding] at hall hopen ⊢
      by_cases ho : s.codingOpen = true
      · rw [if_pos ho] at hall ⊢
        rw [applyCodingEffect_answers] at hall
        exact applyCodingEffect_done_of cases _ hall ho
      · rw [if_neg ho] at hopen
        exact absurd hopen ho

/-- Witness for C7 (amended): an answer submitted with the binder open
is stored; a done state stays done after closing the binder. -/
theorem C7_binder_done_witness :
    lookupAnswer (stepCoding codingCasesBase ⟨[], true, false⟩
        (CodingAction.answer "A1" "99213 + I10")).codingAnswers "A1"
      = some "99213 + I10" ∧
    (([CodingAction.closeBinder] : List CodingAction).foldl
        (stepCoding codingCasesBase) ⟨[], true, true⟩).codingDone = true :=
  ⟨(C7_binder_done codingCasesBase).1 ⟨[], true, false⟩ "A1" "99213 + I10" rfl,
   (C7_binder_done codingCasesBase).2.1 ⟨[], true, true⟩ [CodingAction.closeBinder] rfl⟩

end DoctorsOffice
